import Mathlib

/-!
Verification of the trajectory-classification engine exposed through the
JNI surface of `src/jni/jni_api.cpp` (Humansense Android app).

Only the JNI glue layer is present in the repository sources; the engine it
wraps (the `Classifier` class, `loadModels`, `cleanUpModels`, the engine
`classifyTrajectory`, and the ANN library `annDist`/`annClose`) is declared
but its implementation is not in `src/`.  Definitions for those parts are
modelled from the specification and are marked `Modelled from the spec:` in
their doc comments.  The JNI wrappers themselves are translated directly
from `jni_api.cpp`.

Machine floats (`jfloat`, `ANNcoord`) are modelled as exact reals; JNI
array pinning (`GetPrimitiveArrayCritical`), which can fail and return
null, is modelled by explicit Boolean success flags or `Option` arguments.
A `none` result of a wrapper marks an execution with no defined outcome
(a null-pointer dereference or an out-of-bounds write, i.e. undefined
behavior in the C++ source).
-/

namespace HumanSense

/-- Modelled from the spec: one reference model (`Model` in the data model
section): a name, the reference points of its spatial index (in the
projected feature space), and the per-model projection transform mapping a
raw sample window into that feature space.  The concrete transform lives in
the missing `Classifier.cpp`, so it is kept abstract as a function field. -/
structure Model where
  name : String
  refPoints : List (List ℝ)
  proj : List ℝ → ℕ → List (List ℝ)

/-- Modelled from the spec: the loaded `ModelCollection` held by the global
`classifier` singleton of `jni_api.cpp` (class `Classifier`, not in `src/`):
an ordered sequence of models, the shared window size, and the temperature
of the distance-to-score transform (a configuration constant per the spec). -/
structure Classifier where
  models : List Model
  winSize : ℕ
  tau : ℝ

/-- Modelled from the spec: `Classifier::MATCH_STEPS`, a compile-time
constant of the missing `Classifier.h`.  Its concrete value is not visible
in `src/` and no claim depends on it; any fixed natural number works. -/
def MATCH_STEPS : ℕ := 32

/-- Modelled from the spec: `Classifier::getNumModels`, the number of
models in the loaded collection. -/
def Classifier.getNumModels (c : Classifier) : ℕ :=
  c.models.length

/-- Modelled from the spec: `Classifier::getWindowSize`, the shared window
size of the loaded collection. -/
def Classifier.getWindowSize (c : Classifier) : ℕ :=
  c.winSize

/-- Modelled from the spec: `Classifier::getModelNames`, the
delimiter-joined model names of the loaded collection. -/
def Classifier.getModelNames (c : Classifier) : String :=
  String.intercalate "," (c.models.map Model.name)

/-- Modelled from the spec: `Classifier::getProjectedData(i, sample, len)`,
the projection of a raw sample range into the feature space of model `i`
(a pure, read-only transform per the spec).  An out-of-range ordinal gives
an empty projection; the wrapper only ever passes `i < numModels`. -/
def Classifier.getProjectedData (c : Classifier) (i : ℕ) (sample : List ℝ)
    (len : ℕ) : List (List ℝ) :=
  match c.models.get? i with
  | some m => m.proj sample len
  | none => []

/-- JNI `getNumModels` (`jni_api.cpp:81-86`): returns 0 when the global
`classifier` is NULL, otherwise the collection size. -/
def getNumModelsJNI (cls : Option Classifier) : ℤ :=
  match cls with
  | none => 0
  | some c => (c.getNumModels : ℤ)

/-- JNI `getWindowSize` (`jni_api.cpp:88-93`): returns 0 when the global
`classifier` is NULL, otherwise the window size. -/
def getWindowSizeJNI (cls : Option Classifier) : ℤ :=
  match cls with
  | none => 0
  | some c => (c.getWindowSize : ℤ)

/-- JNI `getModelNames` (`jni_api.cpp:95-108`): returns the empty string
when the global `classifier` is NULL, otherwise the joined names. -/
def getModelNamesJNI (cls : Option Classifier) : String :=
  match cls with
  | none => ""
  | some c => c.getModelNames

/-- Modelled from the spec: the ANN library `annDist(dim, p, q)` (not in
`src/`), the exact pairwise Euclidean distance between two `dim`-length
vectors. -/
noncomputable def annDist (dim : ℕ) (p q : List ℝ) : ℝ :=
  Real.sqrt ((((p.take dim).zip (q.take dim)).map
    (fun x => (x.1 - x.2) ^ 2)).sum)

/-- JNI `annDist` (`jni_api.cpp:22-41`): pins both input arrays; if either
pin yields null it returns 0 (the host exception is already pending),
otherwise it returns the engine distance.  A pinned array is `some` of its
contents, a failed pin is `none`. -/
noncomputable def annDistJNI (dim : ℕ) (pPin qPin : Option (List ℝ)) : ℝ :=
  match pPin, qPin with
  | some pa, some qa => annDist dim pa qa
  | _, _ => 0

/-- Modelled from the spec: the nearest-neighbor distance of a projected
window against the reference points of one model, Euclidean metric over the
flattened window; an empty index deterministically yields no neighbor
(taken as distance 0, which the score guards on emptiness anyway). -/
noncomputable def Model.nearestDist (m : Model) (w : List (List ℝ)) : ℝ :=
  match (m.refPoints.map (fun p => annDist p.length p w.flatten)).min? with
  | some d => d
  | none => 0

/-- Modelled from the spec: the unnormalized per-model score
`s_i = exp(-d_i / tau)` of the distance-to-probability conversion; a model
whose index holds no reference points contributes score 0. -/
noncomputable def Model.score (tau : ℝ) (m : Model) (w : List (List ℝ)) : ℝ :=
  match m.refPoints with
  | [] => 0
  | _ :: _ => Real.exp (-(m.nearestDist w) / tau)

/-- Modelled from the spec: the unnormalized score vector of
`Classifier::classify`, one score per model, each scored against the
per-model projected window supplied by the caller. -/
noncomputable def scoresOf (c : Classifier) (data : List (List (List ℝ))) :
    List ℝ :=
  (c.models.zip data).map (fun md => md.1.score c.tau md.2)

/-- Modelled from the spec: `Classifier::classify(data, steps)` normalizes
the score vector to `p_i = s_i / sum s_j`, returning the all-zero vector
instead of dividing when the total score is zero (no index has any
reference points). -/
noncomputable def Classifier.classify (c : Classifier)
    (data : List (List (List ℝ))) : List ℝ :=
  if (scoresOf c data).sum = 0 then (scoresOf c data).map (fun _ => 0)
  else (scoresOf c data).map (fun x => x / (scoresOf c data).sum)

/-- The per-model projected data built by the `classifySample` wrapper loop
(`jni_api.cpp:121-128`): entry `i` is
`classifier->getProjectedData(i, sample + startIndex, MATCH_STEPS + 1)`. -/
def projectedDataJNI (c : Classifier) (inArr : List ℝ) (startIndex : ℕ) :
    List (List (List ℝ)) :=
  (List.range c.models.length).map
    (fun i => c.getProjectedData i (inArr.drop startIndex) (MATCH_STEPS + 1))

/-- JNI `classifySample` (`jni_api.cpp:110-148`), translated statement by
statement.  The global `classifier` is dereferenced with NO null check
(line 116), so the Idle state gives no defined outcome (`none`).  A failed
pin of `in` or `out` returns early with both arrays untouched.  The write
loop stores the first `M` probabilities into `out` unconditionally; a
buffer shorter than `M` is an out-of-bounds write (`none`).  The result
carries the final contents of the `in` and `out` arrays. -/
noncomputable def classifySampleJNI (cls : Option Classifier)
    (inArr : List ℝ) (inPinOk : Bool) (startIndex : ℕ)
    (outArr : List ℝ) (outPinOk : Bool) : Option (List ℝ × List ℝ) :=
  match cls with
  | none => none
  | some c =>
    if inPinOk then
      if outPinOk then
        if c.models.length ≤ outArr.length then
          some (inArr,
            (c.classify (projectedDataJNI c inArr startIndex)).take
                c.models.length
              ++ outArr.drop c.models.length)
        else none
      else some (inArr, outArr)
    else some (inArr, outArr)

/-- Modelled from the spec: `loadModels(path)` (missing `ModelStore`
implementation).  Strong exception safety: a successful parse of the models
file fully replaces the collection; a failed load leaves the prior (or
empty) collection untouched.  The parse outcome of the file is `some`
collection or `none` for failure. -/
def loadModels (modelsFile : Option Classifier) (cls : Option Classifier) :
    Option Classifier :=
  match modelsFile with
  | some c => some c
  | none => cls

/-- Modelled from the spec: `cleanUpModels()` releases the loaded
collection and returns the engine to the Idle state; releasing an already
Idle engine is a harmless no-op. -/
def cleanUpModels (_cls : Option Classifier) : Option Classifier :=
  none

/-- Sliding windows of length `n` over a sample stream, used by the
trajectory pass of the engine. -/
def windowsOf (n : ℕ) (l : List (List ℝ)) : List (List (List ℝ)) :=
  (List.range (l.length + 1 - n)).map (fun i => (l.drop i).take n)

/-- Modelled from the spec: the engine `classifyTrajectory(fin, fout)`
(missing `ClassifyTrajectory.cpp`): available only in the Ready state; in
the Idle state it fails explicitly (`NotLoaded`) and performs no
classification.  When Ready it emits one probability vector per full
window of the input stream. -/
noncomputable def classifyTrajectoryEngine (cls : Option Classifier)
    (input : List (List ℝ)) : Option (List (List ℝ)) :=
  match cls with
  | none => none
  | some c =>
    some ((windowsOf c.winSize input).map
      (fun w => c.classify (projectedDataJNI c w.flatten 0)))

/-- JNI `classifyTrajectory` (`jni_api.cpp:47-59`): the composite operation
runs exactly `loadModels(modelsFile)`, then the engine trajectory pass,
then `cleanUpModels()`, and returns the final engine state together with
the classification output (`none` when no classification ran). -/
noncomputable def classifyTrajectoryJNI (modelsFile : Option Classifier)
    (input : List (List ℝ)) (cls : Option Classifier) :
    Option Classifier × Option (List (List ℝ)) :=
  (cleanUpModels (loadModels modelsFile cls),
   classifyTrajectoryEngine (loadModels modelsFile cls) input)

/-- JNI `deleteModels` (`jni_api.cpp:77-79`): calls `cleanUpModels()`. -/
def deleteModelsJNI (cls : Option Classifier) : Option Classifier :=
  cleanUpModels cls

/-- Modelled from the spec: the ANN library `annClose()` (not in `src/`),
releasing the process-wide auxiliary resources of the spatial-search
subsystem; the state records whether such resources are currently held,
and release is idempotent. -/
def annCloseEngine (_resourcesHeld : Bool) : Bool :=
  false

/-- A concrete model with one reference point, for witnesses. -/
def modelA : Model :=
  ⟨"A", [[0]], fun s _ => [s]⟩

/-- A concrete model with an empty index, for witnesses. -/
def modelB : Model :=
  ⟨"B", [], fun _ _ => []⟩

/-- A concrete one-model collection, for witnesses. -/
def clsOne : Classifier :=
  ⟨[modelA], 5, 1⟩

/-- A concrete two-model collection, for witnesses. -/
def clsTwo : Classifier :=
  ⟨[modelA, modelB], 5, 1⟩

/-!  ## Helper lemmas  -/

theorem score_nonneg (tau : ℝ) (m : Model) (w : List (List ℝ)) :
    0 ≤ m.score tau w := by
  rcases m with ⟨n, rp, pj⟩
  cases rp with
  | nil => simp [Model.score]
  | cons a l => exact (Real.exp_pos _).le

theorem score_pos (tau : ℝ) (m : Model) (w : List (List ℝ))
    (h : m.refPoints ≠ []) : 0 < m.score tau w := by
  rcases m with ⟨n, rp, pj⟩
  cases rp with
  | nil => exact absurd rfl h
  | cons a l => exact Real.exp_pos _

theorem sum_map_div (l : List ℝ) (t : ℝ) :
    (l.map (fun x => x / t)).sum = l.sum / t := by
  induction l with
  | nil => simp
  | cons a l ih => simp [ih, add_div]

theorem scoresOf_nonneg (c : Classifier) (data : List (List (List ℝ))) :
    ∀ x ∈ scoresOf c data, 0 ≤ x := by
  intro x hx
  obtain ⟨md, hmd, rfl⟩ := List.mem_map.mp hx
  exact score_nonneg c.tau md.1 md.2

theorem scoresOf_sum_pos (c : Classifier) (data : List (List (List ℝ)))
    (hlen : data.length = c.models.length)
    (hex : ∃ m ∈ c.models, m.refPoints ≠ []) :
    0 < (scoresOf c data).sum := by
  unfold scoresOf at *
  rcases c with ⟨ms, wsz, tau⟩
  simp only at hlen hex ⊢
  induction ms generalizing data with
  | nil => simp at hex
  | cons m ms ih =>
    cases data with
    | nil => simp at hlen
    | cons d ds =>
      simp only [List.zip_cons_cons, List.map_cons, List.sum_cons]
      rcases hex with ⟨m1, hm1, hne⟩
      rcases List.mem_cons.mp hm1 with rfl | hmem
      · have h1 : 0 < m1.score tau d := score_pos tau m1 d hne
        have h2 : 0 ≤ ((ms.zip ds).map (fun md => md.1.score tau md.2)).sum := by
          refine List.sum_nonneg ?_
          intro x hx
          obtain ⟨md, hmd, rfl⟩ := List.mem_map.mp hx
          exact score_nonneg tau md.1 md.2
        linarith
      · have h1 := ih ds (by simpa using hlen) ⟨m1, hmem, hne⟩
        have h2 : 0 ≤ m.score tau d := score_nonneg tau m d
        linarith

theorem scoresOf_all_zero (c : Classifier) (data : List (List (List ℝ)))
    (h : ∀ m ∈ c.models, m.refPoints = []) :
    ∀ x ∈ scoresOf c data, x = 0 := by
  intro x hx
  obtain ⟨⟨m, d⟩, hmd, rfl⟩ := List.mem_map.mp hx
  have hm : m ∈ c.models := (List.of_mem_zip hmd).1
  have hrp := h m hm
  rcases m with ⟨n, rp, pj⟩
  simp only at hrp
  subst hrp
  simp [Model.score]

theorem classify_length (c : Classifier) (data : List (List (List ℝ))) :
    (c.classify data).length = min c.models.length data.length := by
  unfold Classifier.classify scoresOf
  split <;> simp

theorem projectedDataJNI_length (c : Classifier) (inArr : List ℝ)
    (startIndex : ℕ) :
    (projectedDataJNI c inArr startIndex).length = c.models.length := by
  simp [projectedDataJNI]

/-- The core probability-vector property of the modelled
`Classifier::classify`: entries lie in `[0, 1]`; they sum to 1 when some
model holds a reference point, and are all zero when no model does. -/
theorem classify_prob_vector (c : Classifier) (data : List (List (List ℝ)))
    (hlen : data.length = c.models.length) :
    (∀ x ∈ c.classify data, 0 ≤ x ∧ x ≤ 1) ∧
    ((∃ m ∈ c.models, m.refPoints ≠ []) → (c.classify data).sum = 1) ∧
    ((∀ m ∈ c.models, m.refPoints = []) → ∀ x ∈ c.classify data, x = 0) := by
  unfold Classifier.classify
  by_cases h0 : (scoresOf c data).sum = 0
  · rw [if_pos h0]
    refine ⟨?_, ?_, ?_⟩
    · intro x hx
      obtain ⟨y, hy, rfl⟩ := List.mem_map.mp hx
      norm_num
    · intro hex
      exact absurd h0 (ne_of_gt (scoresOf_sum_pos c data hlen hex))
    · intro hall x hx
      obtain ⟨y, hy, rfl⟩ := List.mem_map.mp hx
      rfl
  · rw [if_neg h0]
    have hnn := scoresOf_nonneg c data
    have hts : 0 ≤ (scoresOf c data).sum := List.sum_nonneg hnn
    have htpos : 0 < (scoresOf c data).sum := lt_of_le_of_ne hts (Ne.symm h0)
    refine ⟨?_, ?_, ?_⟩
    · intro x hx
      obtain ⟨y, hy, rfl⟩ := List.mem_map.mp hx
      constructor
      · exact div_nonneg (hnn y hy) hts
      · exact div_le_one_of_le₀ (List.single_le_sum hnn y hy) hts
    · intro _
      rw [sum_map_div]
      exact div_self h0
    · intro hall
      exfalso
      apply h0
      have : ∀ x ∈ scoresOf c data, x = 0 := scoresOf_all_zero c data hall
      exact List.sum_eq_zero this

/-!  ## Claim theorems  -/

/-- Claim C2: in the Idle state (no collection loaded), the pure queries
`getNumModels`, `getWindowSize` and `getModelNames` return 0, 0 and the
empty string respectively, and never fail. -/
theorem idle_queries_defined :
    getNumModelsJNI none = 0 ∧ getWindowSizeJNI none = 0 ∧
    getModelNamesJNI none = "" :=
  ⟨rfl, rfl, rfl⟩

/-- Claim C5: the engine distance is symmetric on equal-length vectors and
zero on identical vectors. -/
theorem annDist_symm_self :
    (∀ (dim : ℕ) (p q : List ℝ), p.length = q.length →
      annDist dim p q = annDist dim q p) ∧
    (∀ (dim : ℕ) (p : List ℝ), annDist dim p p = 0) := by
  constructor
  · intro dim p q hpq
    unfold annDist
    have key : ∀ (a b : List ℝ),
        ((a.zip b).map (fun x => (x.1 - x.2) ^ 2)).sum =
        ((b.zip a).map (fun x => (x.1 - x.2) ^ 2)).sum := by
      intro a
      induction a with
      | nil => intro b; cases b <;> simp
      | cons x xs ih =>
        intro b
        cases b with
        | nil => simp
        | cons y ys =>
          simp only [List.zip_cons_cons, List.map_cons, List.sum_cons, ih ys]
          ring_nf
    rw [key]
  · intro dim p
    unfold annDist
    have key : ∀ (a : List ℝ),
        ((a.zip a).map (fun x => (x.1 - x.2) ^ 2)).sum = 0 := by
      intro a
      induction a with
      | nil => simp
      | cons x xs ih => simp [ih]
    rw [key]
    exact Real.sqrt_zero

/-- Witness for C5 at concrete vectors of equal length. -/
theorem annDist_symm_self_witness :
    ([(1 : ℝ), 2].length = [(3 : ℝ), 4].length) ∧
    annDist 2 [(1 : ℝ), 2] [(3 : ℝ), 4] = annDist 2 [(3 : ℝ), 4] [(1 : ℝ), 2] :=
  ⟨rfl, annDist_symm_self.1 2 [(1 : ℝ), 2] [(3 : ℝ), 4] rfl⟩

/-- Claim C8: resource release is idempotent: a second `deleteModels`
(`cleanUpModels`) is a no-op that cannot fail, and repeated `annClose`
calls have no further effect after the first. -/
theorem release_idempotent :
    (∀ cls : Option Classifier,
      deleteModelsJNI (deleteModelsJNI cls) = deleteModelsJNI cls) ∧
    (∀ b : Bool, annCloseEngine (annCloseEngine b) = annCloseEngine b) :=
  ⟨fun _ => rfl, fun _ => rfl⟩

/-- Claim C10: if pinning either input array of the JNI `annDist` wrapper
yields null, the wrapper returns 0 instead of a computed distance. -/
theorem annDistJNI_null_pin (dim : ℕ) (pPin qPin : Option (List ℝ))
    (h : pPin = none ∨ qPin = none) : annDistJNI dim pPin qPin = 0 := by
  rcases h with rfl | rfl
  · cases qPin <;> rfl
  · cases pPin <;> rfl

/-- Witness for C10 with a null first pin. -/
theorem annDistJNI_null_pin_witness :
    ((none : Option (List ℝ)) = none ∨ (some [(1 : ℝ)] : Option (List ℝ)) = none) ∧
    annDistJNI 3 none (some [(1 : ℝ)]) = 0 :=
  ⟨Or.inl rfl, annDistJNI_null_pin 3 none (some [(1 : ℝ)]) (Or.inl rfl)⟩

/-- Reduction of the `classifySample` wrapper on a successful run: loaded
collection, both pins succeed, and the out buffer is long enough. -/
theorem classifySampleJNI_run (c : Classifier) (inArr : List ℝ)
    (startIndex : ℕ) (outArr : List ℝ)
    (h : c.models.length ≤ outArr.length) :
    classifySampleJNI (some c) inArr true startIndex outArr true =
      some (inArr,
        (c.classify (projectedDataJNI c inArr startIndex)).take
            c.models.length
          ++ outArr.drop c.models.length) := by
  simp [classifySampleJNI, h]

/-- Claim C1: with a loaded collection and a correctly sized out buffer,
`classifySample` fills the buffer with a probability vector: entries in
`[0, 1]`, summing to 1 when at least one model holds a reference point,
and all zero otherwise — never a division by zero. -/
theorem classifySample_probability_vector (c : Classifier) (inArr : List ℝ)
    (startIndex : ℕ) (outArr : List ℝ)
    (hlen : outArr.length = c.models.length) :
    ∃ fr, classifySampleJNI (some c) inArr true startIndex outArr true =
        some (inArr, fr) ∧
      (∀ x ∈ fr, 0 ≤ x ∧ x ≤ 1) ∧
      ((∃ m ∈ c.models, m.refPoints ≠ []) → fr.sum = 1) ∧
      ((∀ m ∈ c.models, m.refPoints = []) → ∀ x ∈ fr, x = 0) := by
  have hM : c.models.length ≤ outArr.length := le_of_eq hlen.symm
  have hp := classify_prob_vector c (projectedDataJNI c inArr startIndex)
    (projectedDataJNI_length c inArr startIndex)
  have hplen : (c.classify (projectedDataJNI c inArr startIndex)).length =
      c.models.length := by
    rw [classify_length, projectedDataJNI_length]
    exact min_self _
  have htake : (c.classify (projectedDataJNI c inArr startIndex)).take
      c.models.length = c.classify (projectedDataJNI c inArr startIndex) := by
    rw [← hplen]
    exact List.take_length _
  have hdrop : outArr.drop c.models.length = [] := by
    rw [← hlen]
    exact List.drop_length _
  refine ⟨c.classify (projectedDataJNI c inArr startIndex), ?_,
    hp.1, hp.2.1, hp.2.2⟩
  rw [classifySampleJNI_run c inArr startIndex outArr hM, htake, hdrop,
    List.append_nil]

/-- Witness for C1 at a concrete one-model collection whose index holds a
reference point. -/
theorem classifySample_probability_vector_witness :
    ([(0 : ℝ)].length = clsOne.models.length) ∧
    (∃ fr, classifySampleJNI (some clsOne) [(1 : ℝ)] true 0 [(0 : ℝ)] true =
        some ([(1 : ℝ)], fr) ∧
      (∀ x ∈ fr, 0 ≤ x ∧ x ≤ 1) ∧
      ((∃ m ∈ clsOne.models, m.refPoints ≠ []) → fr.sum = 1) ∧
      ((∀ m ∈ clsOne.models, m.refPoints = []) → ∀ x ∈ fr, x = 0)) :=
  ⟨rfl, classifySample_probability_vector clsOne [(1 : ℝ)] 0 [(0 : ℝ)] rfl⟩

/-- Claim C3: the source of `classifySample` dereferences the global
`classifier` with no null check (`jni_api.cpp:116`), unlike its sibling
getters, so a call in the Idle state has no defined outcome at all instead
of the all-zero vector the specification requires. -/
theorem classifySample_idle_undefined :
    classifySampleJNI none [(1 : ℝ)] true 0 [] true = none :=
  rfl

/-- Claim C6: `classifySample` never changes the contents of the supplied
sample window: every run with a defined outcome leaves the `in` array
exactly as it was. -/
theorem classifySample_input_unchanged (cls : Option Classifier)
    (inArr : List ℝ) (inPinOk : Bool) (startIndex : ℕ) (outArr : List ℝ)
    (outPinOk : Bool) (rin rout : List ℝ)
    (h : classifySampleJNI cls inArr inPinOk startIndex outArr outPinOk =
      some (rin, rout)) : rin = inArr := by
  cases cls with
  | none => exact Option.noConfusion h
  | some c =>
    simp only [classifySampleJNI] at h
    split_ifs at h
    all_goals
      first
      | exact Option.noConfusion h
      | · simp only [Option.some.injEq, Prod.mk.injEq] at h
          exact h.1.symm

/-- Witness for C6: a run whose `in` pin fails leaves both arrays
untouched, and the returned `in` contents equal the originals. -/
theorem classifySample_input_unchanged_witness :
    classifySampleJNI (some clsOne) [(1 : ℝ)] false 0 [(2 : ℝ)] false =
        some ([(1 : ℝ)], [(2 : ℝ)]) ∧
    ([(1 : ℝ)] : List ℝ) = [(1 : ℝ)] :=
  ⟨rfl, classifySample_input_unchanged (some clsOne) [(1 : ℝ)] false 0
    [(2 : ℝ)] false [(1 : ℝ)] [(2 : ℝ)] rfl⟩

/-- Counterexample to claim C7: with a loaded one-model collection and an
empty out buffer (length 0 ≠ numModels = 1), `classifySample` does not fail
with any validated error — it reaches the unguarded write loop and performs
an out-of-bounds write (no defined outcome), because no length validation
exists in the source. -/
theorem classifySample_no_length_validation :
    classifySampleJNI (some clsOne) [(0 : ℝ)] true 0 [] true = none :=
  rfl

/-- Claim C7 as amended: the out-buffer length is a caller obligation, not
a validated precondition: with a loaded collection, a buffer shorter than
`numModels()` makes the unguarded write loop go out of bounds (undefined
behavior) instead of failing with `InvalidArgument`. -/
theorem classifySample_oob_when_short (c : Classifier) (inArr : List ℝ)
    (startIndex : ℕ) (outArr : List ℝ)
    (h : outArr.length < c.models.length) :
    classifySampleJNI (some c) inArr true startIndex outArr true = none := by
  have hn : ¬ c.models.length ≤ outArr.length := not_le.mpr h
  simp [classifySampleJNI, hn]

/-- Witness for the amended C7 at a two-model collection with a one-slot
out buffer. -/
theorem classifySample_oob_when_short_witness :
    ([(7 : ℝ)].length < clsTwo.models.length) ∧
    classifySampleJNI (some clsTwo) [(1 : ℝ)] true 0 [(7 : ℝ)] true = none :=
  ⟨by decide, classifySample_oob_when_short clsTwo [(1 : ℝ)] 0 [(7 : ℝ)]
    (by decide)⟩

/-- Claim C9: a successful `classifySample` run writes exactly the first
`M = numModels()` entries of the out buffer with the per-model
probabilities and leaves every entry at index `M` or beyond unchanged. -/
theorem classifySample_writes_first_models (c : Classifier) (inArr : List ℝ)
    (startIndex : ℕ) (outArr : List ℝ)
    (h : c.models.length ≤ outArr.length) :
    ∃ fr, classifySampleJNI (some c) inArr true startIndex outArr true =
        some (inArr, fr) ∧
      fr.length = outArr.length ∧
      fr.take c.models.length =
        c.classify (projectedDataJNI c inArr startIndex) ∧
      fr.drop c.models.length = outArr.drop c.models.length := by
  have hplen : (c.classify (projectedDataJNI c inArr startIndex)).length =
      c.models.length := by
    rw [classify_length, projectedDataJNI_length]
    exact min_self _
  have htake : (c.classify (projectedDataJNI c inArr startIndex)).take
      c.models.length = c.classify (projectedDataJNI c inArr startIndex) := by
    rw [← hplen]
    exact List.take_length _
  refine ⟨_, classifySampleJNI_run c inArr startIndex outArr h, ?_, ?_, ?_⟩
  · rw [List.length_append, htake, hplen, List.length_drop]
    omega
  · rw [htake, ← hplen, List.take_left]
  · rw [htake, ← hplen, List.drop_left]

/-- Witness for C9 at a one-model collection and a two-slot out buffer. -/
theorem classifySample_writes_first_models_witness :
    (clsOne.models.length ≤ [(5 : ℝ), 6].length) ∧
    (∃ fr, classifySampleJNI (some clsOne) [(1 : ℝ)] true 0 [(5 : ℝ), 6] true =
        some ([(1 : ℝ)], fr) ∧
      fr.length = [(5 : ℝ), 6].length ∧
      fr.take clsOne.models.length =
        clsOne.classify (projectedDataJNI clsOne [(1 : ℝ)] 0) ∧
      fr.drop clsOne.models.length = [(5 : ℝ), 6].drop clsOne.models.length) :=
  ⟨by decide, classifySample_writes_first_models clsOne [(1 : ℝ)] 0
    [(5 : ℝ), 6] (by decide)⟩

/-- Counterexample to claim C4 as stated: the wrapper
(`jni_api.cpp:52-54`) invokes the engine trajectory pass unconditionally,
so when the load of the models file fails while a previously loaded
collection is still present (reachable through the separate `loadModels`
entry point sharing the same global), classification still runs — against
the stale collection — instead of not running. -/
theorem classifyTrajectory_stale_classification :
    (classifyTrajectoryJNI none [] (some clsOne)).2 ≠ none := by
  simp [classifyTrajectoryJNI, classifyTrajectoryEngine, loadModels]

/-- Claim C4 as amended: the composite `classifyTrajectory` entry point is
exactly the sequence load, engine trajectory pass, unload, and the final
state is always Idle (no partially-initialized state survives).  The
engine pass is invoked unconditionally, so on a failed load it runs
against whatever collection was loaded before: classification is skipped
only when no prior collection was present. -/
theorem classifyTrajectory_sequence (modelsFile : Option Classifier)
    (input : List (List ℝ)) (cls : Option Classifier) :
    classifyTrajectoryJNI modelsFile input cls =
      (cleanUpModels (loadModels modelsFile cls),
        classifyTrajectoryEngine (loadModels modelsFile cls) input) ∧
    (classifyTrajectoryJNI modelsFile input cls).1 = none ∧
    (modelsFile = none →
      (classifyTrajectoryJNI modelsFile input cls).2 =
        classifyTrajectoryEngine cls input) ∧
    (modelsFile = none → cls = none →
      (classifyTrajectoryJNI modelsFile input cls).2 = none) := by
  refine ⟨rfl, rfl, ?_, ?_⟩
  · intro hf
    subst hf
    rfl
  · intro hf hs
    subst hf
    subst hs
    rfl

/-- Witness for the amended C4: a failed load runs the engine pass on the
prior state, which from Idle produces no classification output. -/
theorem classifyTrajectory_sequence_witness :
    ((none : Option Classifier) = none) ∧
    (classifyTrajectoryJNI none [] none).2 =
      classifyTrajectoryEngine none [] ∧
    (classifyTrajectoryJNI none [] none).2 = none :=
  ⟨rfl, (classifyTrajectory_sequence none [] none).2.2.1 rfl,
    (classifyTrajectory_sequence none [] none).2.2.2 rfl rfl⟩

end HumanSense
